import Mathlib

/-!
# Shallow embedding of pyo3-chrono (`src/lib.rs`)

The library wraps chrono's naive date/time types and converts them to and
from Python `datetime` objects.  This file embeds, from the source:

* the leap-second codec `chrono_to_micros_and_fold` (lib.rs 36-42) and
  `py_to_micros` (lib.rs 44-50);
* the four conversion adapters (`ToPyObject::to_object` and
  `FromPyObject::extract` for `NaiveDateTime`, `NaiveDate`, `NaiveTime`
  and `Duration`).

Machine integers are modelled as `Nat`/`Int` with explicit wrapping where a
Rust cast can wrap; Rust `/` and `%` on `i64` are `Int.tdiv`/`Int.tmod`
(truncation toward zero, the Rust semantics); CPython's `timedelta`
normalization uses floor division (`Int.fdiv`/`Int.emod`, the Python
semantics).  Fallible operations return `Option`/`Except`; a Rust panic in
a chrono constructor is the `none`/`.error .invalidComponents` case, a
pyo3 downcast failure (`PyTryFrom::try_from`) is `.error .typeMismatch`.

External collaborators (the chrono constructors/accessors and the CPython
object constructors/accessors) are modelled from their documented
contracts, which the spec treats as assumed-correct dependencies.
-/

/-! ## Machine-integer primitives -/

/-- The Rust cast `x as i32` applied to an `i64`: two's-complement
interpretation of the low 32 bits. -/
def i64_as_i32 (x : Int) : Int := (x + 2147483648).emod 4294967296 - 2147483648

/-- Rust `TryInto::try_into : i64 -> Result<i32, _>`: succeeds exactly when
the value fits in `i32`. -/
def i64_to_i32_checked (x : Int) : Option Int :=
  if -2147483648 ≤ x ∧ x ≤ 2147483647 then some x else none

/-- Clamp to the `i64` range: the result of a Rust `i64` saturating
operation whose mathematical value is `x`. -/
def satI64 (x : Int) : Int :=
  if x < -9223372036854775808 then -9223372036854775808
  else if 9223372036854775807 < x then 9223372036854775807
  else x

/-- Rust `i64::saturating_mul`. -/
def saturating_mul (a b : Int) : Int := satI64 (a * b)

/-- Rust `i64::saturating_add`. -/
def saturating_add (a b : Int) : Int := satI64 (a + b)

/-- Rust `u32::checked_sub`. -/
def u32_checked_sub (a b : Nat) : Option Nat :=
  if b ≤ a then some (a - b) else none

/-- The Rust cast `x as u8` applied to an unsigned value. -/
def u8_cast (n : Nat) : Nat := n % 256

/-- Rust `u32` addition (wrapping modulo `2^32`). -/
def u32_add (a b : Nat) : Nat := (a + b) % 4294967296

/-! ## Gregorian calendar (shared by chrono and CPython, both proleptic
Gregorian) -/

/-- Proleptic Gregorian leap-year rule. -/
def isLeapYear (y : Int) : Bool :=
  (y.emod 4 == 0 && y.emod 100 != 0) || y.emod 400 == 0

/-- Number of days of month `m` of year `y`. -/
def daysInMonth (y : Int) (m : Nat) : Nat :=
  if m = 2 then (if isLeapYear y then 29 else 28)
  else if m = 4 ∨ m = 6 ∨ m = 9 ∨ m = 11 then 30
  else 31

/-! ## CPython native objects

A constructed native object stores the component values it was built from;
the pyo3 accessors (`get_year`, `get_month`, ..., `get_fold`, `get_days`,
`get_seconds`, `get_microseconds`) are the field projections. -/

/-- A CPython `datetime.date` object. -/
structure PyDate where
  year : Int
  month : Nat
  day : Nat
deriving DecidableEq

/-- A CPython `datetime.time` object (tzinfo is always `None` here; the
library never touches timezones). -/
structure PyTime where
  hour : Nat
  minute : Nat
  second : Nat
  microsecond : Nat
  fold : Bool
deriving DecidableEq

/-- A CPython `datetime.datetime` object (tzinfo always `None`). -/
structure PyDateTime where
  year : Int
  month : Nat
  day : Nat
  hour : Nat
  minute : Nat
  second : Nat
  microsecond : Nat
  fold : Bool
deriving DecidableEq

/-- A CPython `datetime.timedelta` object; a canonical (normalized) object
has `days ∈ [-999999999, 999999999]`, `seconds ∈ [0, 86399]`,
`microseconds ∈ [0, 999999]`. -/
structure PyDelta where
  days : Int
  seconds : Int
  microseconds : Int
deriving DecidableEq

/-- `pyo3::types::PyDate::new` / CPython `datetime.date(year, month, day)`:
validates `1 ≤ year ≤ 9999`, `1 ≤ month ≤ 12` and a month-valid day,
raising `ValueError` (here: `none`) otherwise. -/
def PyDate.new (year : Int) (month day : Nat) : Option PyDate :=
  if 1 ≤ year ∧ year ≤ 9999 ∧ 1 ≤ month ∧ month ≤ 12
     ∧ 1 ≤ day ∧ day ≤ daysInMonth year month
  then some ⟨year, month, day⟩ else none

/-- `pyo3::types::PyTime::new_with_fold` / CPython
`datetime.time(hour, minute, second, microsecond, fold)`. -/
def PyTime.new_with_fold (hour minute second microsecond : Nat) (fold : Bool) :
    Option PyTime :=
  if hour ≤ 23 ∧ minute ≤ 59 ∧ second ≤ 59 ∧ microsecond ≤ 999999
  then some ⟨hour, minute, second, microsecond, fold⟩ else none

/-- `pyo3::types::PyDateTime::new_with_fold` / CPython
`datetime.datetime(year, ..., microsecond, fold)`. -/
def PyDateTime.new_with_fold (year : Int)
    (month day hour minute second microsecond : Nat) (fold : Bool) :
    Option PyDateTime :=
  if 1 ≤ year ∧ year ≤ 9999 ∧ 1 ≤ month ∧ month ≤ 12
     ∧ 1 ≤ day ∧ day ≤ daysInMonth year month
     ∧ hour ≤ 23 ∧ minute ≤ 59 ∧ second ≤ 59 ∧ microsecond ≤ 999999
  then some ⟨year, month, day, hour, minute, second, microsecond, fold⟩
  else none

/-- `pyo3::types::PyDelta::new(py, days, seconds, microseconds, normalize)`.
With `normalize = true` (the only way the library calls it) CPython
renormalizes the components from the total microsecond count using floor
division, and raises `OverflowError` (here: `none`) when the day count
leaves `[-999999999, 999999999]`.  With `normalize = false` the components
are used as given provided they are already canonical. -/
def PyDelta.new (days seconds microseconds : Int) (normalize : Bool) :
    Option PyDelta :=
  if normalize then
    let total := (days * 86400 + seconds) * 1000000 + microseconds
    let d := total.fdiv 86400000000
    let rest := total.emod 86400000000
    if -999999999 ≤ d ∧ d ≤ 999999999
    then some ⟨d, rest.fdiv 1000000, rest.emod 1000000⟩ else none
  else
    if -999999999 ≤ days ∧ days ≤ 999999999 ∧ 0 ≤ seconds ∧ seconds ≤ 86399
       ∧ 0 ≤ microseconds ∧ microseconds ≤ 999999
    then some ⟨days, seconds, microseconds⟩ else none

/-- A dynamically typed Python object, as far as this library inspects one:
one of the four native shapes it converts. -/
inductive PyAny where
  | date (d : PyDate)
  | time (t : PyTime)
  | datetime (dt : PyDateTime)
  | delta (td : PyDelta)
deriving DecidableEq

/-- The failure cases of `FromPyObject::extract`: a pyo3 downcast failure
(`PyTypeError`), or a panic of a chrono constructor on out-of-range
components (the source calls the panicking `from_ymd`/`and_hms_micro`/
`from_hms_micro`). -/
inductive ExtractError where
  | typeMismatch
  | invalidComponents
deriving DecidableEq

/-- `PyTryFrom::try_from::<PyDate>`: CPython's `PyDate_Check`.  A
`datetime.datetime` is a subclass of `datetime.date`, so a datetime object
downcasts to `PyDate` as well (its date accessors are then read). -/
def PyAny.try_from_date : PyAny → Except ExtractError PyDate
  | .date d => .ok d
  | .datetime dt => .ok ⟨dt.year, dt.month, dt.day⟩
  | _ => .error .typeMismatch

/-- `PyTryFrom::try_from::<PyTime>`: CPython's `PyTime_Check`. -/
def PyAny.try_from_time : PyAny → Except ExtractError PyTime
  | .time t => .ok t
  | _ => .error .typeMismatch

/-- `PyTryFrom::try_from::<PyDateTime>`: CPython's `PyDateTime_Check`. -/
def PyAny.try_from_datetime : PyAny → Except ExtractError PyDateTime
  | .datetime dt => .ok dt
  | _ => .error .typeMismatch

/-- `PyTryFrom::try_from::<PyDelta>`: CPython's `PyDelta_Check`. -/
def PyAny.try_from_delta : PyAny → Except ExtractError PyDelta
  | .delta td => .ok td
  | _ => .error .typeMismatch

/-- Whether a native object passes `PyDate_Check` (date or datetime). -/
def PyAny.isDateShaped : PyAny → Bool
  | .date _ => true
  | .datetime _ => true
  | _ => false

/-- Whether a native object passes `PyTime_Check`. -/
def PyAny.isTimeShaped : PyAny → Bool
  | .time _ => true
  | _ => false

/-- Whether a native object passes `PyDateTime_Check`. -/
def PyAny.isDateTimeShaped : PyAny → Bool
  | .datetime _ => true
  | _ => false

/-- Whether a native object passes `PyDelta_Check`. -/
def PyAny.isDeltaShaped : PyAny → Bool
  | .delta _ => true
  | _ => false

/-! ## chrono types (external collaborator, modelled from its documented
contract)

A `chrono::NaiveTime` stores a nanosecond-of-second fraction that may reach
`1_999_999_999` to represent a leap second.  The accessors `year()`,
`month()`, `day()`, `hour()`, `minute()`, `second()`, `nanosecond()` are
the field projections. -/

/-- A `chrono::NaiveDate`, represented by its calendar components. -/
structure Chrono.NaiveDate where
  year : Int
  month : Nat
  day : Nat
deriving DecidableEq

/-- A `chrono::NaiveTime`, represented by its clock components;
`nanosecond < 2_000_000_000`, with values `≥ 1_000_000_000` encoding a
leap second. -/
structure Chrono.NaiveTime where
  hour : Nat
  minute : Nat
  second : Nat
  nanosecond : Nat
deriving DecidableEq

/-- A `chrono::NaiveDateTime`: a date paired with a time. -/
structure Chrono.NaiveDateTime where
  date : Chrono.NaiveDate
  time : Chrono.NaiveTime
deriving DecidableEq

/-- `chrono::NaiveDate::from_ymd`: panics (here: `none`) on an invalid
calendar date or a year outside chrono's supported range
(`i32::MIN >> 13` to `i32::MAX >> 13`). -/
def Chrono.NaiveDate.from_ymd (year : Int) (month day : Nat) :
    Option Chrono.NaiveDate :=
  if -262144 ≤ year ∧ year ≤ 262143 ∧ 1 ≤ month ∧ month ≤ 12
     ∧ 1 ≤ day ∧ day ≤ daysInMonth year month
  then some ⟨year, month, day⟩ else none

/-- `chrono::NaiveTime::from_hms_micro`: panics (here: `none`) on invalid
components; `microsecond` may reach `1_999_999` (leap second); the stored
fraction is `microsecond * 1000` nanoseconds. -/
def Chrono.NaiveTime.from_hms_micro (hour minute second microsecond : Nat) :
    Option Chrono.NaiveTime :=
  if hour ≤ 23 ∧ minute ≤ 59 ∧ second ≤ 59 ∧ microsecond ≤ 1999999
  then some ⟨hour, minute, second, microsecond * 1000⟩ else none

/-- `chrono::NaiveDate::and_hms_micro`. -/
def Chrono.NaiveDate.and_hms_micro (d : Chrono.NaiveDate)
    (hour minute second microsecond : Nat) : Option Chrono.NaiveDateTime :=
  (Chrono.NaiveTime.from_hms_micro hour minute second microsecond).map
    (fun t => ⟨d, t⟩)

/-! ## The leap-second codec (lib.rs 36-50)

`chrono_to_micros_and_fold` takes an `impl chrono::Timelike` and only calls
its `nanosecond()` accessor, so it is embedded as a function of that value;
`py_to_micros` takes an `impl PyTimeAccess` and only calls `get_fold()` and
`get_microsecond()`, so it is embedded as a function of those two values. -/

/-- lib.rs 36-42. -/
def chrono_to_micros_and_fold (nanosecond : Nat) : Nat × Bool :=
  match u32_checked_sub nanosecond 1000000000 with
  | some folded_nanos => (folded_nanos / 1000, true)
  | none => (nanosecond / 1000, false)

/-- lib.rs 44-50. -/
def py_to_micros (microsecond : Nat) (fold : Bool) : Nat :=
  if fold then u32_add microsecond 1000000 else microsecond

/-! ## The four adapters

The newtype wrappers `NaiveDateTime`, `NaiveDate`, `NaiveTime`, `Duration`
are identity wrappers (their equality is the inner value's equality), so
the adapters act directly on the inner chrono values.  A host `Duration`
is identified with its chrono representation, an arbitrary-precision
signed duration; `chrono::Duration::num_microseconds()` reports its
microsecond count when that fits in `i64`. -/

/-- `impl ToPyObject for NaiveDate` (lib.rs 155-161); the trailing
`.unwrap()` panics when `PyDate::new` fails, so the `Option` is kept. -/
def NaiveDate.to_object (d : Chrono.NaiveDate) : Option PyDate :=
  PyDate.new d.year (u8_cast d.month) (u8_cast d.day)

/-- `impl FromPyObject for NaiveDate` (lib.rs 169-178). -/
def NaiveDate.extract (ob : PyAny) : Except ExtractError Chrono.NaiveDate :=
  match PyAny.try_from_date ob with
  | .error e => .error e
  | .ok pydate =>
    match Chrono.NaiveDate.from_ymd pydate.year pydate.month pydate.day with
    | some d => .ok d
    | none => .error .invalidComponents

/-- `impl ToPyObject for NaiveTime` (lib.rs 187-202). -/
def NaiveTime.to_object (t : Chrono.NaiveTime) : Option PyTime :=
  let mf := chrono_to_micros_and_fold t.nanosecond
  PyTime.new_with_fold (u8_cast t.hour) (u8_cast t.minute) (u8_cast t.second)
    mf.1 mf.2

/-- `impl FromPyObject for NaiveTime` (lib.rs 210-220). -/
def NaiveTime.extract (ob : PyAny) : Except ExtractError Chrono.NaiveTime :=
  match PyAny.try_from_time ob with
  | .error e => .error e
  | .ok pytime =>
    match Chrono.NaiveTime.from_hms_micro pytime.hour pytime.minute
        pytime.second (py_to_micros pytime.microsecond pytime.fold) with
    | some t => .ok t
    | none => .error .invalidComponents

/-- `impl ToPyObject for NaiveDateTime` (lib.rs 103-121). -/
def NaiveDateTime.to_object (dt : Chrono.NaiveDateTime) : Option PyDateTime :=
  let mf := chrono_to_micros_and_fold dt.time.nanosecond
  PyDateTime.new_with_fold dt.date.year (u8_cast dt.date.month)
    (u8_cast dt.date.day) (u8_cast dt.time.hour) (u8_cast dt.time.minute)
    (u8_cast dt.time.second) mf.1 mf.2

/-- `impl FromPyObject for NaiveDateTime` (lib.rs 129-146). -/
def NaiveDateTime.extract (ob : PyAny) :
    Except ExtractError Chrono.NaiveDateTime :=
  match PyAny.try_from_datetime ob with
  | .error e => .error e
  | .ok pydatetime =>
    match Chrono.NaiveDate.from_ymd pydatetime.year pydatetime.month
        pydatetime.day with
    | none => .error .invalidComponents
    | some d =>
      match Chrono.NaiveDate.and_hms_micro d pydatetime.hour
          pydatetime.minute pydatetime.second
          (py_to_micros pydatetime.microsecond pydatetime.fold) with
      | some dt => .ok dt
      | none => .error .invalidComponents

/-- lib.rs 231: `const MICROSECONDS_PER_DAY: i64 = 60 * 60 * 24 * 1_000_000`. -/
def MICROSECONDS_PER_DAY : Int := 60 * 60 * 24 * 1000000

/-- lib.rs 235: `self.0.num_microseconds().unwrap_or(i64::MAX)`.  A host
duration is an arbitrary-precision microsecond count `d`;
`num_microseconds()` is `Some` exactly when it fits in `i64`. -/
def Duration.num_microseconds (d : Int) : Option Int :=
  if -9223372036854775808 ≤ d ∧ d ≤ 9223372036854775807 then some d else none

/-- The `total_micros` local of `Duration::to_object` (lib.rs 235). -/
def Duration.total_micros (d : Int) : Int :=
  (Duration.num_microseconds d).getD 9223372036854775807

/-- The `total_days` local of `Duration::to_object` (lib.rs 236-238):
`(total_micros / MICROSECONDS_PER_DAY).try_into().unwrap_or(i32::MAX)`. -/
def Duration.total_days (d : Int) : Int :=
  (i64_to_i32_checked ((Duration.total_micros d).tdiv MICROSECONDS_PER_DAY)).getD
    2147483647

/-- The `subday_micros` local of `Duration::to_object` (lib.rs 240):
`(total_micros % MICROSECONDS_PER_DAY) as i32`. -/
def Duration.subday_micros (d : Int) : Int :=
  i64_as_i32 ((Duration.total_micros d).tmod MICROSECONDS_PER_DAY)

/-- `impl ToPyObject for Duration` (lib.rs 229-250); the trailing
`.unwrap()` panics when `PyDelta::new` fails, so the `Option` is kept. -/
def Duration.to_object (d : Int) : Option PyDelta :=
  PyDelta.new (Duration.total_days d) 0 (Duration.subday_micros d) true

/-- `impl FromPyObject for Duration` (lib.rs 258-270); the result is the
argument of `chrono::Duration::microseconds`, i.e. the host duration's
microsecond count. -/
def Duration.extract (ob : PyAny) : Except ExtractError Int :=
  match PyAny.try_from_delta ob with
  | .error e => .error e
  | .ok pydelta =>
    let total_days := pydelta.days
    let total_seconds := total_days * 24 * 60 * 60 + pydelta.seconds
    .ok (saturating_add (saturating_mul total_seconds 1000000)
      pydelta.microseconds)

/-! ## Helper lemmas -/

/-- A month never has more than 31 days. -/
lemma daysInMonth_le (y : Int) (m : Nat) : daysInMonth y m ≤ 31 := by
  unfold daysInMonth
  split_ifs <;> norm_num

/-- Encoding a non-leap microsecond count. -/
lemma encode_no_leap (m : Nat) (hm : m ≤ 999999) :
    chrono_to_micros_and_fold (m * 1000) = (m, false) := by
  unfold chrono_to_micros_and_fold u32_checked_sub
  rw [if_neg (by omega)]
  show (m * 1000 / 1000, false) = (m, false)
  have h : m * 1000 / 1000 = m := by omega
  rw [h]

/-- Encoding a leap-second microsecond count. -/
lemma encode_leap (m : Nat) (hm : m ≤ 999999) :
    chrono_to_micros_and_fold (1000000000 + m * 1000) = (m, true) := by
  unfold chrono_to_micros_and_fold u32_checked_sub
  rw [if_pos (by omega)]
  show ((1000000000 + m * 1000 - 1000000000) / 1000, true) = (m, true)
  have h : (1000000000 + m * 1000 - 1000000000) / 1000 = m := by omega
  rw [h]

/-- On its legal domain the `u32` addition in `py_to_micros` cannot wrap. -/
lemma decode_eq (m : Nat) (f : Bool) (hm : m ≤ 999999) :
    py_to_micros m f = m + (if f then 1000000 else 0) := by
  unfold py_to_micros u32_add
  cases f <;> simp
  omega

/-! ## Claims about the leap-second codec -/

/-- C5: for every `u32` nanosecond-of-second `n`, the encoder
`chrono_to_micros_and_fold` returns `((n - 1000000000) / 1000, true)` when
`n ≥ 1000000000` and `(n / 1000, false)` otherwise, with truncating integer
division; equivalently, `encode (1000000000 + k * 1000) = (k, true)` and
`encode (k * 1000) = (k, false)` for every `k ∈ [0, 999999]`. -/
theorem C5_encoder_spec (n k : Nat) (hn : n < 4294967296) (hk : k ≤ 999999) :
    chrono_to_micros_and_fold n =
      (if 1000000000 ≤ n then ((n - 1000000000) / 1000, true)
       else (n / 1000, false))
    ∧ chrono_to_micros_and_fold (1000000000 + k * 1000) = (k, true)
    ∧ chrono_to_micros_and_fold (k * 1000) = (k, false) := by
  refine ⟨?_, encode_leap k hk, encode_no_leap k hk⟩
  unfold chrono_to_micros_and_fold u32_checked_sub
  by_cases hc : 1000000000 ≤ n
  · rw [if_pos hc, if_pos hc]
  · rw [if_neg hc, if_neg hc]

/-- Witness for C5 at `n = 1500000000`, `k = 123456`. -/
theorem C5_encoder_spec_witness :
    chrono_to_micros_and_fold 1500000000 =
      (if 1000000000 ≤ 1500000000 then ((1500000000 - 1000000000) / 1000, true)
       else (1500000000 / 1000, false))
    ∧ chrono_to_micros_and_fold (1000000000 + 123456 * 1000) = (123456, true)
    ∧ chrono_to_micros_and_fold (123456 * 1000) = (123456, false) :=
  C5_encoder_spec 1500000000 123456 (by norm_num) (by norm_num)

/-- C6: for every microsecond value `m` (the codec's domain is
`microsecond < 1000000`, spec section 4.1) and fold flag `f`, the decoder
`py_to_micros` returns `m + 1000000` when `f` is true and `m` when `f` is
false, with no other adjustment. -/
theorem C6_decoder_spec (m : Nat) (f : Bool) (hm : m < 1000000) :
    py_to_micros m f = (if f then m + 1000000 else m) := by
  have h := decode_eq m f (by omega)
  cases f <;> simpa using h

/-- Witness for C6 at `m = 999999`, both flag values. -/
theorem C6_decoder_spec_witness :
    py_to_micros 999999 true = (if true then 999999 + 1000000 else 999999)
    ∧ py_to_micros 999999 false = (if false then 999999 + 1000000 else 999999) :=
  ⟨C6_decoder_spec 999999 true (by norm_num),
   C6_decoder_spec 999999 false (by norm_num)⟩

/-- C7: the decoder is the exact left inverse of the encoder on the legal
domain: for every nanosecond-of-second `n = k * 1000` or
`n = 1000000000 + k * 1000` with `k ∈ [0, 999999]`, decoding the encoder's
`(microsecond, fold)` output reproduces `n` exactly.  The decoder's output
is a microsecond-of-second count, converted back to the encoder's
nanosecond unit by the factor 1000 (exactly as the extraction code does:
`from_hms_micro` stores `microsecond * 1000` nanoseconds). -/
theorem C7_codec_left_inverse (k : Nat) (hk : k ≤ 999999) :
    py_to_micros (chrono_to_micros_and_fold (k * 1000)).1
        (chrono_to_micros_and_fold (k * 1000)).2 * 1000 = k * 1000
    ∧ py_to_micros (chrono_to_micros_and_fold (1000000000 + k * 1000)).1
        (chrono_to_micros_and_fold (1000000000 + k * 1000)).2 * 1000 =
      1000000000 + k * 1000 := by
  rw [encode_no_leap k hk, encode_leap k hk]
  rw [decode_eq k false (by omega), decode_eq k true (by omega)]
  constructor <;> simp <;> omega

/-- Witness for C7 at `k = 999999`. -/
theorem C7_codec_left_inverse_witness :
    py_to_micros (chrono_to_micros_and_fold (999999 * 1000)).1
        (chrono_to_micros_and_fold (999999 * 1000)).2 * 1000 = 999999 * 1000
    ∧ py_to_micros (chrono_to_micros_and_fold (1000000000 + 999999 * 1000)).1
        (chrono_to_micros_and_fold (1000000000 + 999999 * 1000)).2 * 1000 =
      1000000000 + 999999 * 1000 :=
  C7_codec_left_inverse 999999 (by norm_num)

/-! ## Claims about the Duration conversions -/

/-- C1 (code bug): at the failing input of 2160000000 microseconds (36
minutes, representable in both systems: it fits `i64` and has day count 0),
`Duration::to_object` wraps the sub-day remainder through the `as i32` cast
and produces the native object `timedelta(-1 days, 84265 s, 32704 us)`,
i.e. -2134967296 microseconds; the render-then-extract round trip therefore
returns -2134967296 instead of the original value, and the
extract-then-render round trip maps the native `timedelta(0, 2160, 0)` to a
different native object.  (The repository's own test table entry
`(0, 36 * 60, 0, 2160000000, true)` asserts exactly this round trip.) -/
theorem C1_duration_round_trip_failing_input :
    (Duration.to_object 2160000000).map (fun pd => Duration.extract (.delta pd))
      = some (.ok (-2134967296))
    ∧ Duration.extract (.delta ⟨0, 2160, 0⟩) = .ok 2160000000
    ∧ Duration.to_object 2160000000 = some ⟨-1, 84265, 32704⟩
    ∧ ((-2134967296 : Int) ≠ 2160000000)
    ∧ ((⟨-1, 84265, 32704⟩ : PyDelta) ≠ ⟨0, 2160, 0⟩) :=
  ⟨rfl, rfl, rfl, by norm_num, by decide⟩

/-- C2 counterexample: at `total_micros = 2160000000` the remainder modulo
86400000000 is 2160000000 itself, which exceeds `i32::MAX = 2147483647`,
and the `as i32` cast changes it to -2134967296. -/
theorem C2_subday_cast_counterexample :
    (Duration.total_micros 2160000000).tmod MICROSECONDS_PER_DAY = 2160000000
    ∧ (2147483647 : Int) < 2160000000
    ∧ Duration.subday_micros 2160000000 = -2134967296
    ∧ ((-2134967296 : Int) ≠ 2160000000) :=
  ⟨rfl, by norm_num, by decide, by norm_num⟩

/-- C2 amended: the `as i32` cast of the sub-day remainder is
value-preserving exactly when the remainder lies within the `i32` range;
since the modulus 86400000000 exceeds `i32::MAX`, remainders outside that
range exist (see the counterexample) and are wrapped by the cast. -/
theorem C2_subday_cast_iff (t : Int) :
    Duration.subday_micros t = (Duration.total_micros t).tmod MICROSECONDS_PER_DAY
    ↔ (-2147483648 ≤ (Duration.total_micros t).tmod MICROSECONDS_PER_DAY
       ∧ (Duration.total_micros t).tmod MICROSECONDS_PER_DAY ≤ 2147483647) := by
  unfold Duration.subday_micros i64_as_i32
  generalize (Duration.total_micros t).tmod MICROSECONDS_PER_DAY = r
  constructor
  · intro h
    have h1 : 0 ≤ (r + 2147483648).emod 4294967296 :=
      Int.emod_nonneg _ (by norm_num)
    have h2 : (r + 2147483648).emod 4294967296 < 4294967296 :=
      Int.emod_lt_of_pos _ (by norm_num)
    omega
  · intro h
    have h1 : (r + 2147483648).emod 4294967296 = r + 2147483648 :=
      Int.emod_eq_of_lt (show (0:Int) ≤ r + 2147483648 by omega)
        (show r + 2147483648 < 4294967296 by omega)
    omega

/-- C9: for every `i64` microsecond count `t`, the quotient
`t / 86400000000` (Rust truncating division) has magnitude at most
106751991 days, so it always fits in `i32`: the `try_into` succeeds, the
`unwrap_or(i32::MAX)` fallback is unreachable, and `total_days` is the true
quotient (in particular a large negative duration is never replaced by
`i32::MAX` days). -/
theorem C9_total_days_fits_i32 (t : Int) (h1 : -9223372036854775808 ≤ t)
    (h2 : t ≤ 9223372036854775807) :
    (t.tdiv MICROSECONDS_PER_DAY).natAbs ≤ 106751991
    ∧ i64_to_i32_checked (t.tdiv MICROSECONDS_PER_DAY)
        = some (t.tdiv MICROSECONDS_PER_DAY)
    ∧ Duration.total_days t = t.tdiv MICROSECONDS_PER_DAY := by
  have hm : Duration.total_micros t = t := by
    unfold Duration.total_micros Duration.num_microseconds
    rw [if_pos ⟨h1, h2⟩]
    rfl
  have habs : (t.tdiv MICROSECONDS_PER_DAY).natAbs ≤ 106751991 := by
    have he : (t.tdiv MICROSECONDS_PER_DAY).natAbs = t.natAbs / 86400000000 := by
      rw [show MICROSECONDS_PER_DAY = (86400000000 : Int) from rfl, Int.natAbs_tdiv]
      rfl
    rw [he]
    have hb : t.natAbs ≤ 9223372036854775808 := by omega
    calc t.natAbs / 86400000000 ≤ 9223372036854775808 / 86400000000 :=
          Nat.div_le_div_right hb
      _ = 106751991 := by norm_num
  have hrange : -2147483648 ≤ t.tdiv MICROSECONDS_PER_DAY
      ∧ t.tdiv MICROSECONDS_PER_DAY ≤ 2147483647 := by omega
  refine ⟨habs, ?_, ?_⟩
  · unfold i64_to_i32_checked
    rw [if_pos hrange]
  · unfold Duration.total_days i64_to_i32_checked
    rw [hm, if_pos hrange]
    rfl

/-- Witness for C9 at `t = i64::MIN`: the most negative representable
duration still yields the true quotient -106751991, not `i32::MAX`. -/
theorem C9_total_days_fits_i32_witness :
    ((-9223372036854775808 : Int).tdiv MICROSECONDS_PER_DAY).natAbs ≤ 106751991
    ∧ i64_to_i32_checked ((-9223372036854775808 : Int).tdiv MICROSECONDS_PER_DAY)
        = some ((-9223372036854775808 : Int).tdiv MICROSECONDS_PER_DAY)
    ∧ Duration.total_days (-9223372036854775808)
        = (-9223372036854775808 : Int).tdiv MICROSECONDS_PER_DAY :=
  C9_total_days_fits_i32 (-9223372036854775808) (by norm_num) (by norm_num)

/-- C3 counterexample: for the native duration `(-999999999 days, 0 s, 1 us)`
the true microsecond total overflows `i64` downward, yet the computed result
is `i64::MIN + 1`, which is neither `i64::MAX` nor `i64::MIN` — the claim
"any overflow yields exactly i64::MAX or i64::MIN" fails. -/
theorem C3_saturation_counterexample :
    Duration.extract (.delta ⟨-999999999, 0, 1⟩) = .ok (-9223372036854775807)
    ∧ ((-999999999 : Int) * 86400 + 0) * 1000000 + 1 < -9223372036854775808
    ∧ ((-9223372036854775807 : Int) ≠ -9223372036854775808)
    ∧ ((-9223372036854775807 : Int) ≠ 9223372036854775807) :=
  ⟨rfl, by norm_num, by norm_num, by norm_num⟩

/-- C3 amended: for every native triple with `days` in the `i32` range and
`seconds`, `microseconds` in their native component ranges, extraction
computes `(days * 86400 + seconds) * 1000000 + microseconds` with a
saturating multiplication followed by a saturating addition and never
errors; positive overflow yields exactly `i64::MAX`, but negative overflow
of the multiplication yields `i64::MIN + microseconds` (within 999999 of
`i64::MIN`, and equal to `i64::MIN` only when `microseconds = 0`); no
result is ever wrapped.  In particular `(999999999, 86399, 999999)` maps to
`i64::MAX` and `(-999999999, 0, 0)` maps to `i64::MIN`. -/
theorem C3_saturating_characterization (d s micro : Int)
    (hd : -2147483648 ≤ d ∧ d ≤ 2147483647)
    (hs : 0 ≤ s ∧ s ≤ 86399)
    (hm : 0 ≤ micro ∧ micro ≤ 999999) :
    Duration.extract (.delta ⟨d, s, micro⟩) = .ok
      (if 9223372036854775807 < (d * 86400 + s) * 1000000
       then 9223372036854775807
       else if (d * 86400 + s) * 1000000 < -9223372036854775808
       then -9223372036854775808 + micro
       else if 9223372036854775807 < (d * 86400 + s) * 1000000 + micro
       then 9223372036854775807
       else (d * 86400 + s) * 1000000 + micro) := by
  show Except.ok (saturating_add (saturating_mul (d * 24 * 60 * 60 + s) 1000000) micro) = _
  unfold saturating_add saturating_mul satI64
  congr 1
  split_ifs <;> omega

/-- Witness for C3 at the two extreme native durations from the spec. -/
theorem C3_saturating_characterization_witness :
    Duration.extract (.delta ⟨999999999, 86399, 999999⟩)
      = .ok 9223372036854775807
    ∧ Duration.extract (.delta ⟨-999999999, 0, 0⟩)
      = .ok (-9223372036854775808) := by
  constructor
  · rw [C3_saturating_characterization 999999999 86399 999999
      (by norm_num) (by norm_num) (by norm_num)]
    norm_num
  · rw [C3_saturating_characterization (-999999999) 0 0
      (by norm_num) (by norm_num) (by norm_num)]
    norm_num

/-! ## Claims about extraction error handling -/

/-- C8: every `extract` applied to a native object that is not of the
expected native shape returns the typed `typeMismatch` failure (never a
wrong value), and it can succeed only when the object has the expected
shape.  For the Date adapter the expected shape is "passes
`PyDate_Check`", which a datetime object also does (subclass). -/
theorem C8_type_mismatch (ob : PyAny) :
    (PyAny.isDateShaped ob = false →
      NaiveDate.extract ob = .error .typeMismatch)
    ∧ (PyAny.isTimeShaped ob = false →
      NaiveTime.extract ob = .error .typeMismatch)
    ∧ (PyAny.isDateTimeShaped ob = false →
      NaiveDateTime.extract ob = .error .typeMismatch)
    ∧ (PyAny.isDeltaShaped ob = false →
      Duration.extract ob = .error .typeMismatch)
    ∧ ((NaiveDate.extract ob).isOk = true → PyAny.isDateShaped ob = true)
    ∧ ((NaiveTime.extract ob).isOk = true → PyAny.isTimeShaped ob = true)
    ∧ ((NaiveDateTime.extract ob).isOk = true →
      PyAny.isDateTimeShaped ob = true)
    ∧ ((Duration.extract ob).isOk = true → PyAny.isDeltaShaped ob = true) := by
  cases ob <;>
    simp [NaiveDate.extract, NaiveTime.extract, NaiveDateTime.extract,
      Duration.extract, PyAny.try_from_date, PyAny.try_from_time,
      PyAny.try_from_datetime, PyAny.try_from_delta, PyAny.isDateShaped,
      PyAny.isTimeShaped, PyAny.isDateTimeShaped, PyAny.isDeltaShaped,
      Except.isOk, Except.toBool] <;>
    split <;> simp

/-- Witness for C8: the Date adapter applied to a Duration-shaped native
object fails with the typed mismatch error. -/
theorem C8_type_mismatch_witness :
    NaiveDate.extract (.delta ⟨0, 0, 0⟩) = .error .typeMismatch :=
  (C8_type_mismatch (.delta ⟨0, 0, 0⟩)).1 rfl

/-! ## Claim about the microsecond precondition -/

/-- C10: if a native time object's microsecond accessor returns a value
below 1000000 (guaranteed by the native runtime), then the decoded
microsecond-of-second is at most 1999999, `from_hms_micro` accepts it, and
Time extraction succeeds; likewise DateTime extraction succeeds for every
well-formed native datetime object (component values as CPython guarantees
for constructed objects) — the panicking branches are unreachable. -/
theorem C10_no_micro_overflow (pt : PyTime) (pdt : PyDateTime)
    (hm : pt.microsecond < 1000000) (hh : pt.hour ≤ 23) (hmi : pt.minute ≤ 59)
    (hs : pt.second ≤ 59)
    (hy1 : 1 ≤ pdt.year) (hy2 : pdt.year ≤ 9999)
    (hmo1 : 1 ≤ pdt.month) (hmo2 : pdt.month ≤ 12)
    (hd1 : 1 ≤ pdt.day) (hd2 : pdt.day ≤ daysInMonth pdt.year pdt.month)
    (hh2 : pdt.hour ≤ 23) (hmi2 : pdt.minute ≤ 59) (hs2 : pdt.second ≤ 59)
    (hm2 : pdt.microsecond < 1000000) :
    py_to_micros pt.microsecond pt.fold ≤ 1999999
    ∧ (Chrono.NaiveTime.from_hms_micro pt.hour pt.minute pt.second
        (py_to_micros pt.microsecond pt.fold)).isSome = true
    ∧ (NaiveTime.extract (.time pt)).isOk = true
    ∧ (NaiveDateTime.extract (.datetime pdt)).isOk = true := by
  have hb : py_to_micros pt.microsecond pt.fold ≤ 1999999 := by
    rw [decode_eq pt.microsecond pt.fold (by omega)]
    cases pt.fold <;> simp <;> omega
  have hb2 : py_to_micros pdt.microsecond pdt.fold ≤ 1999999 := by
    rw [decode_eq pdt.microsecond pdt.fold (by omega)]
    cases pdt.fold <;> simp <;> omega
  have hsome : Chrono.NaiveTime.from_hms_micro pt.hour pt.minute pt.second
      (py_to_micros pt.microsecond pt.fold)
      = some ⟨pt.hour, pt.minute, pt.second,
          py_to_micros pt.microsecond pt.fold * 1000⟩ := by
    unfold Chrono.NaiveTime.from_hms_micro
    rw [if_pos ⟨hh, hmi, hs, hb⟩]
  have hdate : Chrono.NaiveDate.from_ymd pdt.year pdt.month pdt.day
      = some ⟨pdt.year, pdt.month, pdt.day⟩ := by
    unfold Chrono.NaiveDate.from_ymd
    rw [if_pos ⟨by omega, by omega, hmo1, hmo2, hd1, hd2⟩]
  have hdt : Chrono.NaiveDate.and_hms_micro ⟨pdt.year, pdt.month, pdt.day⟩
      pdt.hour pdt.minute pdt.second
      (py_to_micros pdt.microsecond pdt.fold)
      = some ⟨⟨pdt.year, pdt.month, pdt.day⟩,
          ⟨pdt.hour, pdt.minute, pdt.second,
            py_to_micros pdt.microsecond pdt.fold * 1000⟩⟩ := by
    unfold Chrono.NaiveDate.and_hms_micro Chrono.NaiveTime.from_hms_micro
    rw [if_pos ⟨hh2, hmi2, hs2, hb2⟩]
    rfl
  refine ⟨hb, by rw [hsome]; rfl, ?_, ?_⟩
  · simp [NaiveTime.extract, PyAny.try_from_time, hsome, Except.isOk,
      Except.toBool]
  · simp [NaiveDateTime.extract, PyAny.try_from_datetime, hdate, hdt,
      Except.isOk, Except.toBool]

/-- Witness for C10 at a leap-second native time and a leap-second native
datetime. -/
theorem C10_no_micro_overflow_witness :
    py_to_micros (999999 : Nat) true ≤ 1999999
    ∧ (Chrono.NaiveTime.from_hms_micro 23 59 59
        (py_to_micros (999999 : Nat) true)).isSome = true
    ∧ (NaiveTime.extract (.time ⟨23, 59, 59, 999999, true⟩)).isOk = true
    ∧ (NaiveDateTime.extract
        (.datetime ⟨2016, 12, 31, 23, 59, 59, 123456, true⟩)).isOk = true :=
  C10_no_micro_overflow ⟨23, 59, 59, 999999, true⟩
    ⟨2016, 12, 31, 23, 59, 59, 123456, true⟩
    (by norm_num) (by norm_num) (by norm_num) (by norm_num) (by norm_num)
    (by norm_num) (by norm_num) (by norm_num) (by norm_num)
    (by norm_num [daysInMonth]) (by norm_num) (by norm_num) (by norm_num)
    (by norm_num)

/-! ## Claim C4: date/time/datetime round trips -/

/-- C4: for every component tuple `(year, month, day, hour, minute, second,
microsecond, leapFlag)` with `year ∈ [1, 9999]`, a month-valid calendar
date, in-range clock components, `microsecond < 1000000` and any leap flag,
rendering the host value to a native object and extracting it back yields
the original host value, and extracting the corresponding native object and
rendering it back yields an equal native object — for all three shapes
Date, Time and DateTime.  The host time carries the tuple as the
nanosecond fraction `microsecond * 1000`, plus one second when the leap
flag is set (chrono's leap-second encoding). -/
theorem C4_datetime_round_trip (y : Int) (mo d h mi s micro : Nat)
    (leap : Bool)
    (hy1 : 1 ≤ y) (hy2 : y ≤ 9999) (hmo1 : 1 ≤ mo) (hmo2 : mo ≤ 12)
    (hd1 : 1 ≤ d) (hd2 : d ≤ daysInMonth y mo)
    (hh : h ≤ 23) (hmi : mi ≤ 59) (hs : s ≤ 59) (hmicro : micro ≤ 999999) :
    (NaiveDate.to_object ⟨y, mo, d⟩ = some ⟨y, mo, d⟩
     ∧ NaiveDate.extract (.date ⟨y, mo, d⟩) = .ok ⟨y, mo, d⟩)
    ∧ (NaiveTime.to_object
         ⟨h, mi, s, (if leap then 1000000000 else 0) + micro * 1000⟩
         = some ⟨h, mi, s, micro, leap⟩
       ∧ NaiveTime.extract (.time ⟨h, mi, s, micro, leap⟩)
         = .ok ⟨h, mi, s, (if leap then 1000000000 else 0) + micro * 1000⟩)
    ∧ (NaiveDateTime.to_object
         ⟨⟨y, mo, d⟩, ⟨h, mi, s, (if leap then 1000000000 else 0) + micro * 1000⟩⟩
         = some ⟨y, mo, d, h, mi, s, micro, leap⟩
       ∧ NaiveDateTime.extract (.datetime ⟨y, mo, d, h, mi, s, micro, leap⟩)
         = .ok ⟨⟨y, mo, d⟩,
             ⟨h, mi, s, (if leap then 1000000000 else 0) + micro * 1000⟩⟩) := by
  have hdm := daysInMonth_le y mo
  have hcmo : u8_cast mo = mo := Nat.mod_eq_of_lt (by omega)
  have hcd : u8_cast d = d := Nat.mod_eq_of_lt (by omega)
  have hch : u8_cast h = h := Nat.mod_eq_of_lt (by omega)
  have hcmi : u8_cast mi = mi := Nat.mod_eq_of_lt (by omega)
  have hcs : u8_cast s = s := Nat.mod_eq_of_lt (by omega)
  have henc : chrono_to_micros_and_fold
      ((if leap then 1000000000 else 0) + micro * 1000) = (micro, leap) := by
    cases leap
    · simpa using encode_no_leap micro hmicro
    · simpa using encode_leap micro hmicro
  have hdecle : py_to_micros micro leap ≤ 1999999 := by
    rw [decode_eq micro leap hmicro]
    cases leap <;> simp <;> omega
  have hdec : py_to_micros micro leap * 1000
      = (if leap then 1000000000 else 0) + micro * 1000 := by
    rw [decode_eq micro leap hmicro]
    cases leap <;> simp <;> omega
  have hymd : Chrono.NaiveDate.from_ymd y mo d = some ⟨y, mo, d⟩ := by
    unfold Chrono.NaiveDate.from_ymd
    rw [if_pos ⟨by omega, by omega, hmo1, hmo2, hd1, hd2⟩]
  have hfhm : Chrono.NaiveTime.from_hms_micro h mi s (py_to_micros micro leap)
      = some ⟨h, mi, s, (if leap then 1000000000 else 0) + micro * 1000⟩ := by
    unfold Chrono.NaiveTime.from_hms_micro
    rw [if_pos ⟨hh, hmi, hs, hdecle⟩, hdec]
  have handhms : Chrono.NaiveDate.and_hms_micro ⟨y, mo, d⟩ h mi s
      (py_to_micros micro leap)
      = some ⟨⟨y, mo, d⟩,
          ⟨h, mi, s, (if leap then 1000000000 else 0) + micro * 1000⟩⟩ := by
    unfold Chrono.NaiveDate.and_hms_micro
    rw [hfhm]
    rfl
  refine ⟨⟨?_, ?_⟩, ⟨?_, ?_⟩, ⟨?_, ?_⟩⟩
  · simp [NaiveDate.to_object, hcmo, hcd, PyDate.new, hy1, hy2, hmo1, hmo2,
      hd1, hd2]
  · simp [NaiveDate.extract, PyAny.try_from_date, hymd]
  · simp only [NaiveTime.to_object, hch, hcmi, hcs, henc]
    simp [PyTime.new_with_fold, hh, hmi, hs, hmicro]
  · simp [NaiveTime.extract, PyAny.try_from_time, hfhm]
  · simp only [NaiveDateTime.to_object, hcmo, hcd, hch, hcmi, hcs, henc]
    simp [PyDateTime.new_with_fold, hy1, hy2, hmo1, hmo2, hd1, hd2, hh, hmi,
      hs, hmicro]
  · simp [NaiveDateTime.extract, PyAny.try_from_datetime, hymd, handhms]

/-- Witness for C4 at the leap-second instant Dec 31 2016, 23:59:59.123456,
fold set. -/
theorem C4_datetime_round_trip_witness :
    (NaiveDate.to_object ⟨2016, 12, 31⟩ = some ⟨2016, 12, 31⟩
     ∧ NaiveDate.extract (.date ⟨2016, 12, 31⟩) = .ok ⟨2016, 12, 31⟩)
    ∧ (NaiveTime.to_object
         ⟨23, 59, 59, (if true then 1000000000 else 0) + 123456 * 1000⟩
         = some ⟨23, 59, 59, 123456, true⟩
       ∧ NaiveTime.extract (.time ⟨23, 59, 59, 123456, true⟩)
         = .ok ⟨23, 59, 59, (if true then 1000000000 else 0) + 123456 * 1000⟩)
    ∧ (NaiveDateTime.to_object
         ⟨⟨2016, 12, 31⟩,
          ⟨23, 59, 59, (if true then 1000000000 else 0) + 123456 * 1000⟩⟩
         = some ⟨2016, 12, 31, 23, 59, 59, 123456, true⟩
       ∧ NaiveDateTime.extract
           (.datetime ⟨2016, 12, 31, 23, 59, 59, 123456, true⟩)
         = .ok ⟨⟨2016, 12, 31⟩,
             ⟨23, 59, 59, (if true then 1000000000 else 0) + 123456 * 1000⟩⟩) :=
  C4_datetime_round_trip 2016 12 31 23 59 59 123456 true
    (by norm_num) (by norm_num) (by norm_num) (by norm_num) (by norm_num)
    (by norm_num [daysInMonth]) (by norm_num) (by norm_num) (by norm_num)
    (by norm_num)
